import Mathlib

set_option maxHeartbeats 1000000

/-!
Verification of the type-resolution and constraint-translation engine of
`pg2zod` (`src/type-mapper.ts`).  The TypeScript functions `mapColumnToZod`,
`mapBaseTypeToZod`, `applyCheckConstraints`, `toPascalCase` and the regular
expressions they use are embedded below as executable Lean definitions.

Modelling conventions:
* Mutation of the shared `warnings` array is modelled by threading the list
  through and returning the updated list.
* `throw new Error(msg)` is modelled by returning `Except.error msg`.
* JavaScript truthiness tests on `string | null` values (`if (column.domainName)`,
  custom-mapping hits) are modelled faithfully: `null` and the empty string are
  falsy.  Truthiness on `number | null` (`if (column.characterMaximumLength)`)
  treats `null` and `0` as falsy.
* The regular-expression searches of `applyCheckConstraints` are embedded as
  explicit leftmost-match scanners.  The character classes involved
  (`[\d.]`, `[^)]`, `[^']`, `[><=]`, `\d`) never overlap the literal text that
  follows them in any of the nine patterns, so greedy matching needs no
  backtracking and the scanners below implement exactly the JS semantics
  (for column names without regex metacharacters, which is how the generator
  always calls these functions).
* `parseFloat(v) + Number.EPSILON` / `parseFloat(v) - Number.EPSILON` followed
  by JS number-to-string interpolation are IEEE-754 double operations; they are
  abstracted as explicit function parameters `nudgeUp` / `nudgeDown` of the
  constraint compositor.  Every theorem about the compositor below holds for
  all choices of these two functions.
-/

namespace PgToZod

/-- Single-quote character, used pervasively by the clause matchers. -/
def squote : Char := Char.ofNat 39

/-! ## JS string primitives

`toLowerCase`, `split`, `trim` and the `\s` class, embedded structurally so
that every definition in this file evaluates inside the kernel. -/

/-- `s.toLowerCase()` (ASCII case mapping — SQL identifiers and clause text). -/
def toLowerJS (s : String) : String :=
  String.mk (s.data.map Char.toLower)

/-- The JS `\s` class (the members that occur in SQL text). -/
def isSpaceJS (c : Char) : Bool :=
  c == ' ' || c == '\t' || c == '\n' || c == '\r' || c == Char.ofNat 11 || c == Char.ofNat 12

/-- `s.split(sep)` for a one-character separator, on character lists. -/
def splitOnChar (sep : Char) : List Char → List (List Char)
  | [] => [[]]
  | c :: cs =>
    let rest := splitOnChar sep cs
    if c == sep then [] :: rest
    else
      match rest with
      | r :: rs => (c :: r) :: rs
      | [] => [[c]]

/-- `s.split(sep)` for a one-character separator. -/
def splitChar (sep : Char) (s : String) : List String :=
  (splitOnChar sep s.data).map String.mk

/-- `v.trim()`. -/
def trimJS (v : String) : String :=
  String.mk (((v.data.dropWhile isSpaceJS).reverse.dropWhile isSpaceJS).reverse)

/-! ## Data model (from `ColumnMetadata` and friends in `src/generator.ts`;
only the fields read by `src/type-mapper.ts` are relevant, the others are kept
where they document the record shape). -/

structure ColumnMetadata where
  columnName : String
  dataType : String
  isNullable : Bool
  characterMaximumLength : Option Nat
  numericPrecision : Option Nat
  numericScale : Option Nat
  udtName : String
  domainName : Option String
  arrayDimensions : Nat
  isArray : Bool
deriving Repr, DecidableEq

structure EnumMetadata where
  enumName : String
  enumValues : List String
  schemaName : String
deriving Repr, DecidableEq

structure CompositeTypeMetadata where
  typeName : String
  schemaName : String
deriving Repr, DecidableEq

structure RangeTypeMetadata where
  rangeName : String
  subtype : String
  schemaName : String
deriving Repr, DecidableEq

structure CheckConstraintMetadata where
  constraintName : String
  checkClause : String
deriving Repr, DecidableEq

structure DomainMetadata where
  domainName : String
  dataType : String
  schemaName : String
  isNullable : Bool
  checkConstraints : List CheckConstraintMetadata
deriving Repr, DecidableEq

structure DatabaseMetadata where
  enums : List EnumMetadata
  compositeTypes : List CompositeTypeMetadata
  rangeTypes : List RangeTypeMetadata
  domains : List DomainMetadata
deriving Repr, DecidableEq

structure SchemaGenerationOptions where
  strictMode : Bool
  customTypeMappings : Option (List (String × String))
deriving Repr, DecidableEq

/-! ## Casing helper (`toPascalCase` in `src/type-mapper.ts`) -/

/-- `word.charAt(0).toUpperCase() + word.slice(1).toLowerCase()`. -/
def capitalizeWord (w : String) : String :=
  match w.data with
  | [] => ""
  | c :: cs => String.mk (c.toUpper :: cs.map Char.toLower)

/-- `str.split('_').map(...).join('')`. -/
def toPascalCase (str : String) : String :=
  String.join ((splitChar '_' str).map capitalizeWord)

/-! ## Type resolver (`mapBaseTypeToZod`, `mapColumnToZod`) -/

/-- `if (column.isArray && udtName.startsWith('_')) udtName = udtName.substring(1)`. -/
def stripArrayUdt (column : ColumnMetadata) : String :=
  match column.udtName.data with
  | c :: cs => if column.isArray && c == '_' then String.mk cs else column.udtName
  | [] => column.udtName

/-- `options.customTypeMappings?.[udtName]` used under a JS truthiness test:
a missing table, a missing key and an empty-string mapping are all falsy. -/
def customLookup (options : SchemaGenerationOptions) (udt : String) : Option String :=
  match options.customTypeMappings with
  | none => none
  | some mappings =>
    match mappings.lookup udt with
    | none => none
    | some v => if v = "" then none else some v

/-- The fixed builtin `switch (typeToCheck)` table of `mapBaseTypeToZod`;
`none` is the `default:` branch (unknown type). -/
def builtinMap (typeToCheck : String) (column : ColumnMetadata) : Option String :=
  match typeToCheck with
  | "smallint" | "integer" | "int" | "int2" | "int4" => some "z.number().int()"
  | "bigint" | "int8" => some "z.bigint()"
  | "decimal" | "numeric" =>
    match column.numericPrecision, column.numericScale with
    | some p, some s =>
      some ("z.number() /* precision: " ++ toString p ++ ", scale: " ++ toString s ++ " */")
    | _, _ => some "z.number()"
  | "real" | "float4" => some "z.number()"
  | "double precision" | "float8" => some "z.number()"
  | "money" => some "z.string().regex(/^\\$?[0-9,]+(\\.\\d\x7b2\x7d)?$/)"
  | "character varying" | "varchar" =>
    match column.characterMaximumLength with
    | some n => if n ≠ 0 then some ("z.string().max(" ++ toString n ++ ")") else some "z.string()"
    | none => some "z.string()"
  | "character" | "char" =>
    match column.characterMaximumLength with
    | some n => if n ≠ 0 then some ("z.string().length(" ++ toString n ++ ")") else some "z.string()"
    | none => some "z.string()"
  | "text" => some "z.string()"
  | "citext" => some "z.string()"
  | "boolean" | "bool" => some "z.boolean()"
  | "timestamp" | "timestamp without time zone" => some "z.date()"
  | "timestamp with time zone" | "timestamptz" => some "z.date()"
  | "date" => some "z.date()"
  | "time" | "time without time zone" => some "z.iso.time()"
  | "time with time zone" | "timetz" =>
    some "z.string().regex(/^\\d\x7b2\x7d:\\d\x7b2\x7d:\\d\x7b2\x7d(\\.\\d+)?[+-]\\d\x7b2\x7d:\\d\x7b2\x7d$/)"
  | "interval" => some "z.iso.duration()"
  | "uuid" => some "z.uuid()"
  | "json" => some "z.record(z.string(), z.unknown())"
  | "jsonb" => some "z.record(z.string(), z.unknown())"
  | "inet" => some "z.union([z.ipv4(), z.ipv6()])"
  | "cidr" => some "z.union([z.cidrv4(), z.cidrv6()])"
  | "macaddr" => some "z.mac()"
  | "macaddr8" => some "z.string().regex(/^([0-9A-Fa-f]\x7b2\x7d[:-])\x7b7\x7d([0-9A-Fa-f]\x7b2\x7d)$/)"
  | "bit" =>
    match column.characterMaximumLength with
    | some n =>
      if n ≠ 0 then some ("z.string().regex(/^[01]\x7b" ++ toString n ++ "\x7d$/)")
      else some "z.string().regex(/^[01]+$/)"
    | none => some "z.string().regex(/^[01]+$/)"
  | "bit varying" | "varbit" =>
    match column.characterMaximumLength with
    | some n =>
      if n ≠ 0 then some ("z.string().regex(/^[01]\x7b0," ++ toString n ++ "\x7d$/)")
      else some "z.string().regex(/^[01]*$/)"
    | none => some "z.string().regex(/^[01]*$/)"
  | "point" => some "z.tuple([z.number(), z.number()])"
  | "line" => some "z.object(\x7b a: z.number(), b: z.number(), c: z.number() \x7d)"
  | "lseg" => some "z.tuple([z.tuple([z.number(), z.number()]), z.tuple([z.number(), z.number()])])"
  | "box" => some "z.tuple([z.tuple([z.number(), z.number()]), z.tuple([z.number(), z.number()])])"
  | "path" => some "z.array(z.tuple([z.number(), z.number()]))"
  | "polygon" => some "z.array(z.tuple([z.number(), z.number()]))"
  | "circle" => some "z.object(\x7b center: z.tuple([z.number(), z.number()]), radius: z.number() \x7d)"
  | "tsvector" => some "z.string() /* tsvector */"
  | "tsquery" => some "z.string() /* tsquery */"
  | "xml" => some "z.string() /* XML */"
  | "bytea" => some "z.instanceof(Buffer)"
  | "oid" => some "z.number().int().positive()"
  | "regproc" | "regprocedure" | "regoper" | "regoperator" | "regclass" | "regtype"
  | "regrole" | "regnamespace" | "regconfig" | "regdictionary" =>
    some "z.string() /* PostgreSQL OID reference */"
  | "pg_lsn" => some "z.string().regex(/^[0-9A-F]+\\/[0-9A-F]+$/)"
  | _ => none

/-- The warning text pushed (and thrown in strict mode) by the `default:`
branch of `mapBaseTypeToZod`. -/
def unknownTypeWarning (dataType udtName columnName : String) : String :=
  "Unknown type: " ++ dataType ++ " (udt: " ++ udtName ++ ") in column " ++ columnName

/-- `mapBaseTypeToZod` from `src/type-mapper.ts`.  The returned pair is
(result-or-thrown-error, warnings array after the call). -/
def mapBaseTypeToZod (column : ColumnMetadata) (metadata : DatabaseMetadata)
    (options : SchemaGenerationOptions) (warnings : List String) :
    Except String String × List String :=
  let udtName := stripArrayUdt column
  let dataType := (toLowerJS column.dataType)
  match customLookup options udtName with
  | some custom => (Except.ok custom, warnings)
  | none =>
  match metadata.enums.find? (fun e => e.enumName == udtName) with
  | some enumType =>
    (Except.ok (toPascalCase enumType.schemaName ++ toPascalCase enumType.enumName ++ "Schema"),
     warnings)
  | none =>
  match metadata.compositeTypes.find? (fun t => t.typeName == udtName) with
  | some compositeType =>
    (Except.ok (toPascalCase compositeType.schemaName ++ toPascalCase compositeType.typeName ++
      "CompositeSchema"), warnings)
  | none =>
  match metadata.rangeTypes.find? (fun r => r.rangeName == udtName) with
  | some rangeType =>
    (Except.ok (toPascalCase rangeType.schemaName ++ toPascalCase rangeType.rangeName ++ "Schema"),
     warnings)
  | none =>
  let typeToCheck := if dataType == "array" then udtName else dataType
  match builtinMap typeToCheck column with
  | some s => (Except.ok s, warnings)
  | none =>
    let warning := unknownTypeWarning dataType udtName column.columnName
    ((if options.strictMode then Except.error warning
      else Except.ok "z.unknown() /* unmapped type */"),
     warnings ++ [warning])

/-- The `if (column.domainName) { const domain = metadata.domains.find(...) }`
head of `mapColumnToZod`: JS truthiness makes a `null` or empty domain name
skip the lookup entirely. -/
def domainLookup (column : ColumnMetadata) (metadata : DatabaseMetadata) :
    Option DomainMetadata :=
  match column.domainName with
  | none => none
  | some s =>
    if s = "" then none else metadata.domains.find? (fun d => d.domainName == s)

/-- The `for (let i = 1; i < dims; i++) arraySchema = z.array(arraySchema)`
loop: wraps `n` further array layers around `s`, outermost last. -/
def extraWraps : Nat → String → String
  | 0, s => s
  | n + 1, s => extraWraps n ("z.array(" ++ s ++ ")")

/-- `n` nested `z.array(...)` layers around `s` (outermost first); used to
state theorems about array depth. -/
def iterWrap : Nat → String → String
  | 0, s => s
  | n + 1, s => "z.array(" ++ iterWrap n s ++ ")"

/-- `mapColumnToZod` from `src/type-mapper.ts`. -/
def mapColumnToZod (column : ColumnMetadata) (metadata : DatabaseMetadata)
    (options : SchemaGenerationOptions) (warnings : List String) :
    Except String String × List String :=
  match domainLookup column metadata with
  | some domain =>
    let schema := toPascalCase domain.schemaName ++ toPascalCase domain.domainName ++ "Schema"
    (Except.ok (if column.isNullable then schema ++ ".nullable()" else schema), warnings)
  | none =>
    if column.isArray then
      match mapBaseTypeToZod column metadata options warnings with
      | (Except.error e, w) => (Except.error e, w)
      | (Except.ok baseType, w) =>
        let arraySchema := extraWraps (column.arrayDimensions - 1) ("z.array(" ++ baseType ++ ")")
        (Except.ok (if column.isNullable then arraySchema ++ ".nullable()" else arraySchema), w)
    else
      match mapBaseTypeToZod column metadata options warnings with
      | (Except.error e, w) => (Except.error e, w)
      | (Except.ok baseSchema, w) =>
        (Except.ok (if column.isNullable then baseSchema ++ ".nullable()" else baseSchema), w)

/-! ## String utilities used by `applyCheckConstraints`
(`String.prototype.includes` and single-occurrence `String.prototype.replace`). -/

/-- `haystack.includes(needle)` on character lists. -/
def containsFrom (sub : List Char) : List Char → Bool
  | [] => sub.isPrefixOf ([] : List Char)
  | c :: cs => sub.isPrefixOf (c :: cs) || containsFrom sub cs

/-- `s.includes(sub)`. -/
def containsSub (s sub : String) : Bool :=
  containsFrom sub.data s.data

/-- `s.replace(pat, repl)` with a plain-string pattern replaces only the
leftmost occurrence. -/
def replaceFirstAux (pat repl : List Char) : List Char → List Char
  | [] => []
  | c :: cs =>
    if pat.isPrefixOf (c :: cs) then repl ++ (c :: cs).drop pat.length
    else c :: replaceFirstAux pat repl cs

/-- `s.replace(pat, repl)` (first occurrence only, as in JS for string
patterns). -/
def replaceFirst (s pat repl : String) : String :=
  String.mk (replaceFirstAux pat.data repl.data s.data)

/-! ## Leftmost-search matchers for the check-constraint regular expressions

Each `...At` function attempts an anchored match at one position;
`scanStarts` tries every start position left to right, exactly like a JS
regex search. -/

/-- Leftmost-match driver: try the anchored matcher at each successive start
position. -/
def scanStarts {α : Type} (f : List Char → Option α) : List Char → Option α
  | [] => f []
  | c :: cs =>
    match f (c :: cs) with
    | some r => some r
    | none => scanStarts f cs

/-- The `[\d.]` class. -/
def isNumChar (c : Char) : Bool :=
  c.isDigit || c == '.'

/-- Strip an exact literal from the head of the input. -/
def stripExact : List Char → List Char → Option (List Char)
  | [], s => some s
  | _ :: _, [] => none
  | l :: ls, c :: cs => if c == l then stripExact ls cs else none

/-- Anchored `col\s*OP\s*([\d.]+)` (the comparison patterns). -/
def cmpAt (col op : List Char) (s : List Char) : Option String :=
  match stripExact col s with
  | none => none
  | some s1 =>
    match stripExact op (s1.dropWhile isSpaceJS) with
    | none => none
    | some s2 =>
      let num := (s2.dropWhile isSpaceJS).takeWhile isNumChar
      if num.isEmpty then none else some (String.mk num)

/-- `` col\s*>=\s*([\d.]+) `` searched anywhere in the clause. -/
def geMatch (col clause : String) : Option String :=
  scanStarts (cmpAt col.data ['>', '=']) clause.data

/-- `` col\s*>\s*([\d.]+) ``. -/
def gtMatch (col clause : String) : Option String :=
  scanStarts (cmpAt col.data ['>']) clause.data

/-- `` col\s*<=\s*([\d.]+) ``. -/
def leMatch (col clause : String) : Option String :=
  scanStarts (cmpAt col.data ['<', '=']) clause.data

/-- `` col\s*<\s*([\d.]+) ``. -/
def ltMatch (col clause : String) : Option String :=
  scanStarts (cmpAt col.data ['<']) clause.data

/-- Anchored `col\s*between\s*([\d.]+)\s*and\s*([\d.]+)`. -/
def betweenAt (col : List Char) (s : List Char) : Option (String × String) :=
  match stripExact col s with
  | none => none
  | some s1 =>
  match stripExact "between".data (s1.dropWhile isSpaceJS) with
  | none => none
  | some s2 =>
    let a := (s2.dropWhile isSpaceJS).takeWhile isNumChar
    if a.isEmpty then none else
    match stripExact "and".data (((s2.dropWhile isSpaceJS).dropWhile isNumChar).dropWhile isSpaceJS) with
    | none => none
    | some s3 =>
      let b := (s3.dropWhile isSpaceJS).takeWhile isNumChar
      if b.isEmpty then none else some (String.mk a, String.mk b)

/-- The BETWEEN pattern searched anywhere in the clause. -/
def betweenMatch (col clause : String) : Option (String × String) :=
  scanStarts (betweenAt col.data) clause.data

/-- Anchored `col\s*in\s*\(([^)]+)\)`. -/
def inAt (col : List Char) (s : List Char) : Option String :=
  match stripExact col s with
  | none => none
  | some s1 =>
  match stripExact "in".data (s1.dropWhile isSpaceJS) with
  | none => none
  | some s2 =>
  match stripExact "(".data (s2.dropWhile isSpaceJS) with
  | none => none
  | some s3 =>
    let inner := s3.takeWhile (fun c => c != ')')
    if inner.isEmpty then none
    else
      match s3.dropWhile (fun c => c != ')') with
      | _ :: _ => some (String.mk inner)
      | [] => none

/-- The `IN (...)` pattern searched anywhere in the clause. -/
def inMatch (col clause : String) : Option String :=
  scanStarts (inAt col.data) clause.data

/-- Anchored tail of `\(?col\s*=\s*any\s*\(array\[([^\]]+)\]` after the
optional opening parenthesis. -/
def anyArrayCore (col : List Char) (s : List Char) : Option String :=
  match stripExact col s with
  | none => none
  | some s1 =>
  match stripExact "=".data (s1.dropWhile isSpaceJS) with
  | none => none
  | some s2 =>
  match stripExact "any".data (s2.dropWhile isSpaceJS) with
  | none => none
  | some s3 =>
  match stripExact "(array[".data (s3.dropWhile isSpaceJS) with
  | none => none
  | some s4 =>
    let inner := s4.takeWhile (fun c => c != ']')
    if inner.isEmpty then none
    else
      match s4.dropWhile (fun c => c != ']') with
      | _ :: _ => some (String.mk inner)
      | [] => none

/-- Anchored `\(?col\s*=\s*any\s*\(array\[([^\]]+)\]` (the `\(?` prefers
consuming a parenthesis, backtracking to the zero-width alternative). -/
def anyArrayAt (col : List Char) (s : List Char) : Option String :=
  match s with
  | '(' :: rest =>
    (match anyArrayCore col rest with
     | some r => some r
     | none => anyArrayCore col s)
  | _ => anyArrayCore col s

/-- The `= ANY (ARRAY[...])` pattern searched anywhere in the clause. -/
def anyArrayMatch (col clause : String) : Option String :=
  scanStarts (anyArrayAt col.data) clause.data

/-- Anchored `col\s*~\s*'([^']+)'`. -/
def tildeAt (col : List Char) (s : List Char) : Option String :=
  match stripExact col s with
  | none => none
  | some s1 =>
  match stripExact "~".data (s1.dropWhile isSpaceJS) with
  | none => none
  | some s2 =>
  match stripExact [squote] (s2.dropWhile isSpaceJS) with
  | none => none
  | some s3 =>
    let inner := s3.takeWhile (fun c => c != squote)
    if inner.isEmpty then none
    else
      match s3.dropWhile (fun c => c != squote) with
      | _ :: _ => some (String.mk inner)
      | [] => none

/-- The regex-operator pattern `col ~ 'pattern'` searched anywhere. -/
def tildeMatch (col clause : String) : Option String :=
  scanStarts (tildeAt col.data) clause.data

/-- Anchored `length\(col\)\s*([><=]+)\s*([\d]+)`. -/
def lengthAt (col : List Char) (s : List Char) : Option (String × String) :=
  match stripExact "length(".data s with
  | none => none
  | some s1 =>
  match stripExact col s1 with
  | none => none
  | some s2 =>
  match stripExact ")".data s2 with
  | none => none
  | some s3 =>
    let op := (s3.dropWhile isSpaceJS).takeWhile (fun c => c == '>' || c == '<' || c == '=')
    if op.isEmpty then none else
    let num := (((s3.dropWhile isSpaceJS).dropWhile (fun c => c == '>' || c == '<' || c == '=')).dropWhile
      isSpaceJS).takeWhile Char.isDigit
    if num.isEmpty then none else some (String.mk op, String.mk num)

/-- The `length(col) <op> N` pattern searched anywhere. -/
def lengthMatch (col clause : String) : Option (String × String) :=
  scanStarts (lengthAt col.data) clause.data

/-- `v.trim().match(/'([^']+)'/)` applied at one position. -/
def findQuotedAt (s : List Char) : Option String :=
  match s with
  | c :: rest =>
    if c == squote then
      let inner := rest.takeWhile (fun ch => ch != squote)
      if inner.isEmpty then none
      else
        match rest.dropWhile (fun ch => ch != squote) with
        | _ :: _ => some (String.mk inner)
        | [] => none
    else none
  | [] => none

/-- First `'quoted'` chunk inside `v`, as in the `= ANY (ARRAY[...])` value
extraction. -/
def findQuoted (v : String) : Option String :=
  scanStarts findQuotedAt v.data

/-- `v.replace(/'/g, '')`: remove every single quote. -/
def removeQuotes (v : String) : String :=
  String.mk (v.data.filter (fun c => c != squote))

/-! ## Constraint compositor (`applyCheckConstraints`) -/

/-- `` `z.enum([${values.map(v => `'${v}'`).join(', ')}])` ``. -/
def enumSchema (values : List String) : String :=
  "z.enum([" ++ String.intercalate ", " (values.map (fun v => "\x27" ++ v ++ "\x27")) ++ "])"

/-- The regex-operator and `length(...)` patterns followed by the final
"add as a comment" fallback.  The `= ANY (ARRAY[...])` branch of the source
reaches this code when its inner guard fails because its `continue` sits
inside that guard. -/
def tailPatterns (columnName schema checkClause rawClause : String) : String :=
  match tildeMatch columnName checkClause with
  | some pat =>
    if containsSub schema "z.string()" then
      replaceFirst schema "z.string()" ("z.string().regex(/" ++ pat ++ "/)")
    else schema
  | none =>
  match lengthMatch columnName checkClause with
  | some (op, value) =>
    if containsSub schema "z.string()" then
      if op == ">=" || op == ">" then
        replaceFirst schema "z.string()" ("z.string().min(" ++ value ++ ")")
      else if op == "<=" || op == "<" then
        replaceFirst schema "z.string()" ("z.string().max(" ++ value ++ ")")
      else schema
    else schema
  | none => schema ++ " /* CHECK: " ++ rawClause ++ " */"

/-- One iteration of the `for (const constraint of constraints)` loop of
`applyCheckConstraints`.  `nudgeUp v` and `nudgeDown v` abstract the IEEE-754
computations `` `${parseFloat(v) + Number.EPSILON}` `` and
`` `${parseFloat(v) - Number.EPSILON}` `` of the strict-comparison branches. -/
def applyOneConstraint (nudgeUp nudgeDown : String → String)
    (columnName schema rawClause : String) : String :=
  let checkClause := toLowerJS rawClause
  match geMatch columnName checkClause with
  | some value =>
    if containsSub schema "z.number()" then
      replaceFirst schema "z.number()" ("z.number().min(" ++ value ++ ")")
    else if containsSub schema "z.bigint()" then
      replaceFirst schema "z.bigint()" ("z.bigint().min(" ++ value ++ "n)")
    else schema
  | none =>
  match gtMatch columnName checkClause with
  | some value =>
    if containsSub schema "z.number()" then
      replaceFirst schema "z.number()" ("z.number().min(" ++ nudgeUp value ++ ")")
    else schema
  | none =>
  match leMatch columnName checkClause with
  | some value =>
    if containsSub schema "z.number()" then
      replaceFirst schema "z.number()" ("z.number().max(" ++ value ++ ")")
    else if containsSub schema "z.bigint()" then
      replaceFirst schema "z.bigint()" ("z.bigint().max(" ++ value ++ "n)")
    else schema
  | none =>
  match ltMatch columnName checkClause with
  | some value =>
    if containsSub schema "z.number()" then
      replaceFirst schema "z.number()" ("z.number().max(" ++ nudgeDown value ++ ")")
    else schema
  | none =>
  match betweenMatch columnName checkClause with
  | some (minV, maxV) =>
    if containsSub schema "z.number()" then
      replaceFirst schema "z.number()" ("z.number().min(" ++ minV ++ ").max(" ++ maxV ++ ")")
    else schema
  | none =>
  match inMatch columnName checkClause with
  | some inner =>
    let values := (splitChar ',' inner).map (fun v => removeQuotes (trimJS v))
    if containsSub schema "z.string()" then enumSchema values else schema
  | none =>
  match anyArrayMatch columnName checkClause with
  | some valuesStr =>
    let values := ((splitChar ',' valuesStr).map (fun v => findQuoted (trimJS v))).filterMap id
    if !values.isEmpty && containsSub schema "z.string()" then enumSchema values
    else tailPatterns columnName schema checkClause rawClause
  | none => tailPatterns columnName schema checkClause rawClause

/-- `applyCheckConstraints` from `src/type-mapper.ts`. -/
def applyCheckConstraints (nudgeUp nudgeDown : String → String)
    (columnName baseSchema : String) (constraints : List CheckConstraintMetadata) : String :=
  constraints.foldl
    (fun schema c => applyOneConstraint nudgeUp nudgeDown columnName schema c.checkClause)
    baseSchema

/-! ## Data-driven cascade reformulation of the per-clause step

Used to settle the precedence claim: each entry maps
(column name, lowercased clause, current schema) to `some newSchema` when that
pattern consumes the clause, and the runner takes the first success. -/

abbrev PatternStep := String → String → String → Option String

/-- Cascade entry for `col >= N`. -/
def geStep : PatternStep := fun col clause schema =>
  (geMatch col clause).map (fun value =>
    if containsSub schema "z.number()" then
      replaceFirst schema "z.number()" ("z.number().min(" ++ value ++ ")")
    else if containsSub schema "z.bigint()" then
      replaceFirst schema "z.bigint()" ("z.bigint().min(" ++ value ++ "n)")
    else schema)

/-- Cascade entry for `col > N`. -/
def gtStep (nudgeUp : String → String) : PatternStep := fun col clause schema =>
  (gtMatch col clause).map (fun value =>
    if containsSub schema "z.number()" then
      replaceFirst schema "z.number()" ("z.number().min(" ++ nudgeUp value ++ ")")
    else schema)

/-- Cascade entry for `col <= N`. -/
def leStep : PatternStep := fun col clause schema =>
  (leMatch col clause).map (fun value =>
    if containsSub schema "z.number()" then
      replaceFirst schema "z.number()" ("z.number().max(" ++ value ++ ")")
    else if containsSub schema "z.bigint()" then
      replaceFirst schema "z.bigint()" ("z.bigint().max(" ++ value ++ "n)")
    else schema)

/-- Cascade entry for `col < N`. -/
def ltStep (nudgeDown : String → String) : PatternStep := fun col clause schema =>
  (ltMatch col clause).map (fun value =>
    if containsSub schema "z.number()" then
      replaceFirst schema "z.number()" ("z.number().max(" ++ nudgeDown value ++ ")")
    else schema)

/-- Cascade entry for `col BETWEEN a AND b`. -/
def betweenStep : PatternStep := fun col clause schema =>
  (betweenMatch col clause).map (fun p =>
    if containsSub schema "z.number()" then
      replaceFirst schema "z.number()" ("z.number().min(" ++ p.1 ++ ").max(" ++ p.2 ++ ")")
    else schema)

/-- Cascade entry for `col IN (...)`: a textual match always consumes the
clause, even when the enumeration is not applied. -/
def inStep : PatternStep := fun col clause schema =>
  (inMatch col clause).map (fun inner =>
    let values := (splitChar ',' inner).map (fun v => removeQuotes (trimJS v))
    if containsSub schema "z.string()" then enumSchema values else schema)

/-- Cascade entry for `col = ANY (ARRAY[...])`: consumes the clause only when
quoted values were extracted *and* the base is a string expression; otherwise
the clause falls through to the later entries. -/
def anyStep : PatternStep := fun col clause schema =>
  match anyArrayMatch col clause with
  | none => none
  | some valuesStr =>
    let values := ((splitChar ',' valuesStr).map (fun v => findQuoted (trimJS v))).filterMap id
    if !values.isEmpty && containsSub schema "z.string()" then some (enumSchema values) else none

/-- Cascade entry for `col ~ 'pattern'`. -/
def tildeStep : PatternStep := fun col clause schema =>
  (tildeMatch col clause).map (fun pat =>
    if containsSub schema "z.string()" then
      replaceFirst schema "z.string()" ("z.string().regex(/" ++ pat ++ "/)")
    else schema)

/-- Cascade entry for `length(col) <op> N`. -/
def lengthStep : PatternStep := fun col clause schema =>
  (lengthMatch col clause).map (fun p =>
    if containsSub schema "z.string()" then
      if p.1 == ">=" || p.1 == ">" then
        replaceFirst schema "z.string()" ("z.string().min(" ++ p.2 ++ ")")
      else if p.1 == "<=" || p.1 == "<" then
        replaceFirst schema "z.string()" ("z.string().max(" ++ p.2 ++ ")")
      else schema
    else schema)

/-- First-success runner over an ordered list of pattern entries. -/
def runCascade : List PatternStep → String → String → String → String → String
  | [], _, _, _, fallback => fallback
  | f :: rest, col, clause, schema, fallback =>
    match f col clause schema with
    | some s => s
    | none => runCascade rest col clause schema fallback

/-- The nine patterns in source order. -/
def cascadeSteps (nudgeUp nudgeDown : String → String) : List PatternStep :=
  [geStep, gtStep nudgeUp, leStep, ltStep nudgeDown, betweenStep, inStep, anyStep,
   tildeStep, lengthStep]

/-! ## Helper lemmas -/

theorem dataAppend (a b : String) : (a ++ b).data = a.data ++ b.data := rfl

theorem containsFrom_of_isPrefixOf {sub l : List Char} (h : sub.isPrefixOf l = true) :
    containsFrom sub l = true := by
  cases l with
  | nil =>
    cases sub with
    | nil => rfl
    | cons c cs => simp [List.isPrefixOf] at h
  | cons c cs => simp [containsFrom, h]

theorem containsFrom_of_infix {sub l : List Char} (h : sub <:+: l) :
    containsFrom sub l = true := by
  obtain ⟨s, t, rfl⟩ := h
  induction s with
  | nil =>
    simp only [List.nil_append]
    exact containsFrom_of_isPrefixOf (List.isPrefixOf_iff_prefix.mpr (List.prefix_append _ _))
  | cons c cs ih =>
    have hcons : c :: cs ++ sub ++ t = c :: (cs ++ sub ++ t) := by simp
    rw [hcons, containsFrom, ih, Bool.or_true]

theorem containsSub_of_infix {s sub : String} (h : sub.data <:+: s.data) :
    containsSub s sub = true :=
  containsFrom_of_infix h

/-- `includes` holds when the needle heads the haystack. -/
theorem containsSub_append_left (pat t : String) : containsSub (pat ++ t) pat = true :=
  containsSub_of_infix ⟨[], t.data, by simp [dataAppend]⟩

theorem replaceFirstAux_append_left (repl t : List Char) (c : Char) (cs : List Char) :
    replaceFirstAux (c :: cs) repl (c :: cs ++ t) = repl ++ t := by
  simp only [replaceFirstAux]
  have hpre : (c :: cs).isPrefixOf (c :: (cs ++ t)) = true := by
    have h : (c :: cs) <+: ((c :: cs) ++ t) := List.prefix_append _ _
    exact List.isPrefixOf_iff_prefix.mpr h
  simp [hpre, List.drop_left]

/-- First-occurrence replacement on a string that starts with the pattern. -/
theorem replaceFirst_append_left (pat t repl : String) (h : pat.data ≠ []) :
    replaceFirst (pat ++ t) pat repl = repl ++ t := by
  apply String.ext
  show replaceFirstAux pat.data repl.data (pat.data ++ t.data) = (repl ++ t).data
  rw [dataAppend]
  cases hp : pat.data with
  | nil => exact absurd hp h
  | cons c cs => exact replaceFirstAux_append_left repl.data t.data c cs

/-- The two array-wrapping helpers agree. -/
theorem iterWrap_wrap (n : Nat) (s : String) :
    iterWrap n ("z.array(" ++ s ++ ")") = "z.array(" ++ iterWrap n s ++ ")" := by
  induction n with
  | zero => rfl
  | succ n ih => rw [iterWrap, ih, iterWrap]

/-- The source's wrap-once-then-loop pattern produces `n + 1` nested layers. -/
theorem extraWraps_eq_iterWrap (n : Nat) (s : String) :
    extraWraps n ("z.array(" ++ s ++ ")") = iterWrap (n + 1) s := by
  induction n generalizing s with
  | zero => rfl
  | succ n ih =>
    rw [extraWraps, ih ("z.array(" ++ s ++ ")"), iterWrap_wrap, ← iterWrap]

/-- Every branch of `mapBaseTypeToZod` returns `Except.ok` when strict mode is
off; the error constructor is reachable only under `strictMode`. -/
theorem mapBase_ok_of_nonstrict (column : ColumnMetadata) (metadata : DatabaseMetadata)
    (options : SchemaGenerationOptions) (warnings : List String)
    (h : options.strictMode = false) :
    (mapBaseTypeToZod column metadata options warnings).1.isOk = true := by
  unfold mapBaseTypeToZod
  simp only [h, Bool.false_eq_true, if_false]
  repeat' split
  all_goals rfl

/-- The hand-written if/else chain of the per-clause loop body equals the
data-driven first-success cascade over the nine pattern entries. -/
theorem applyOne_eq_cascade (nU nD : String → String) (col schema raw : String) :
    applyOneConstraint nU nD col schema raw =
      runCascade (cascadeSteps nU nD) col (toLowerJS raw) schema
        (schema ++ " /* CHECK: " ++ raw ++ " */") := by
  unfold applyOneConstraint cascadeSteps tailPatterns geStep gtStep leStep ltStep betweenStep
    inStep anyStep tildeStep lengthStep
  simp only [runCascade]
  cases geMatch col (toLowerJS raw) with
  | some v => simp
  | none =>
  simp only [Option.map_none']
  cases gtMatch col (toLowerJS raw) with
  | some v => simp
  | none =>
  simp only [Option.map_none']
  cases leMatch col (toLowerJS raw) with
  | some v => simp
  | none =>
  simp only [Option.map_none']
  cases ltMatch col (toLowerJS raw) with
  | some v => simp
  | none =>
  simp only [Option.map_none']
  cases betweenMatch col (toLowerJS raw) with
  | some p => cases p; simp
  | none =>
  simp only [Option.map_none']
  cases inMatch col (toLowerJS raw) with
  | some v => simp
  | none =>
  simp only [Option.map_none']
  cases anyArrayMatch col (toLowerJS raw) with
  | some v =>
    simp only []
    split <;> rename_i hcond
    · simp [hcond]
    · simp [hcond]
      cases tildeMatch col (toLowerJS raw) with
      | some p => simp
      | none =>
      simp only [Option.map_none']
      cases lengthMatch col (toLowerJS raw) with
      | some p => cases p; simp
      | none => simp
  | none =>
  simp only [Option.map_none']
  cases tildeMatch col (toLowerJS raw) with
  | some p => simp
  | none =>
  simp only [Option.map_none']
  cases lengthMatch col (toLowerJS raw) with
  | some p => cases p; simp
  | none => simp

/-- A `col >= N` clause folded onto a schema that starts with the plain
numeric token splices the bound in right after that token. -/
theorem geApply (nU nD : String → String) (col clause t v : String)
    (hge : geMatch col (toLowerJS clause) = some v) :
    applyOneConstraint nU nD col ("z.number()" ++ t) clause =
      ("z.number().min(" ++ v ++ ")") ++ t := by
  unfold applyOneConstraint
  simp only [hge, containsSub_append_left, if_true]
  exact replaceFirst_append_left "z.number()" t ("z.number().min(" ++ v ++ ")") (by decide)

/-! ## Example fixtures -/

/-- A column whose type matches no catalog entry and no builtin entry. -/
def mysteryColumn : ColumnMetadata :=
  ⟨"mystery", "custom_thing", false, none, none, none, "custom_thing", none, 0, false⟩

def emptyMetadata : DatabaseMetadata := ⟨[], [], [], []⟩

def nonStrictOptions : SchemaGenerationOptions := ⟨false, none⟩

def strictOptions : SchemaGenerationOptions := ⟨true, none⟩

/-! ## Claim theorems -/

/-- C1: a column descriptor whose (non-empty) domain name resolves in the
catalog maps to a `Reference` to that domain's generated schema — independent
of the descriptor's array/enum/composite flags and of the domain's own
nullability — with the nullable wrapper appended exactly when the column
itself is nullable. -/
theorem domain_reference_resolution (column : ColumnMetadata) (metadata : DatabaseMetadata)
    (options : SchemaGenerationOptions) (warnings : List String)
    (dn : String) (dom : DomainMetadata)
    (h1 : column.domainName = some dn) (h2 : dn ≠ "")
    (h3 : metadata.domains.find? (fun d => d.domainName == dn) = some dom) :
    mapColumnToZod column metadata options warnings =
      (Except.ok ((toPascalCase dom.schemaName ++ toPascalCase dom.domainName ++ "Schema") ++
        (if column.isNullable then ".nullable()" else "")), warnings) := by
  have hdl : domainLookup column metadata = some dom := by
    unfold domainLookup
    rw [h1]
    simp [h2, h3]
  unfold mapColumnToZod
  rw [hdl]
  cases hn : column.isNullable <;> simp [hn, String.append_empty]

/-- C1 witness: nullable `contact_email` over domain `email` resolves to a
nullable reference to the domain schema. -/
theorem domain_reference_resolution_witness :
    mapColumnToZod
      ⟨"contact_email", "character varying", true, some 255, none, none, "varchar",
        some "email", 0, false⟩
      ⟨[], [], [], [⟨"email", "varchar", "public", false, []⟩]⟩ nonStrictOptions [] =
      (Except.ok "PublicEmailSchema.nullable()", []) := by
  have h := domain_reference_resolution
    ⟨"contact_email", "character varying", true, some 255, none, none, "varchar",
      some "email", 0, false⟩
    ⟨[], [], [], [⟨"email", "varchar", "public", false, []⟩]⟩
    nonStrictOptions []
    "email" ⟨"email", "varchar", "public", false, []⟩
    rfl (by decide) rfl
  exact h.trans rfl

/-- C2: an array column of declared dimension `d ≥ 1` with no resolved domain
composes exactly `d` `z.array(...)` layers around the resolved element
expression, and the nullable wrapper sits outside the outermost layer. -/
theorem array_depth_wrapping (column : ColumnMetadata) (metadata : DatabaseMetadata)
    (options : SchemaGenerationOptions) (warnings : List String)
    (base : String) (w : List String) (d : Nat)
    (hdom : domainLookup column metadata = none)
    (harr : column.isArray = true)
    (hd : column.arrayDimensions = d) (hd1 : 1 ≤ d)
    (hbase : mapBaseTypeToZod column metadata options warnings = (Except.ok base, w)) :
    mapColumnToZod column metadata options warnings =
      (Except.ok (iterWrap d base ++ (if column.isNullable then ".nullable()" else "")), w) := by
  unfold mapColumnToZod
  rw [hdom]
  simp only [harr, if_true]
  rw [hbase]
  obtain ⟨m, rfl⟩ : ∃ m, d = m + 1 := ⟨d - 1, by omega⟩
  rw [hd]
  simp only [Nat.add_sub_cancel]
  rw [extraWraps_eq_iterWrap]
  cases hn : column.isNullable <;> simp [hn, String.append_empty]

/-- C2 witness: a nullable two-dimensional `text[][]` column becomes
`z.array(z.array(z.string())).nullable()`. -/
theorem array_depth_wrapping_witness :
    mapColumnToZod ⟨"tags", "ARRAY", true, none, none, none, "_text", none, 2, true⟩
      emptyMetadata nonStrictOptions [] =
      (Except.ok "z.array(z.array(z.string())).nullable()", []) := by
  have h := array_depth_wrapping
    ⟨"tags", "ARRAY", true, none, none, none, "_text", none, 2, true⟩
    emptyMetadata nonStrictOptions []
    "z.string()" [] 2
    rfl rfl rfl (by omega) rfl
  exact h.trans rfl

end PgToZod

namespace PgToZod

theorem containsSub_append_right (a b : String) : containsSub (a ++ b) b = true :=
  containsSub_of_infix ⟨a.data, [], by simp [dataAppend]⟩

/-- C3: a column whose type name matches no custom override, no catalog entry
(enum/composite/range) and no builtin table entry resolves, in non-strict
mode, to the unknown marker with exactly one warning pushed and no error; in
strict mode it throws an error whose message contains both the column name
and the (lowercased) type name. -/
theorem unknown_type_fallback (column : ColumnMetadata) (metadata : DatabaseMetadata)
    (options : SchemaGenerationOptions) (warnings : List String)
    (hcustom : customLookup options (stripArrayUdt column) = none)
    (henum : metadata.enums.find? (fun e => e.enumName == stripArrayUdt column) = none)
    (hcomp : metadata.compositeTypes.find? (fun t => t.typeName == stripArrayUdt column) = none)
    (hrange : metadata.rangeTypes.find? (fun r => r.rangeName == stripArrayUdt column) = none)
    (hbuiltin : builtinMap (if toLowerJS column.dataType == "array" then stripArrayUdt column
      else toLowerJS column.dataType) column = none) :
    (options.strictMode = false →
      mapBaseTypeToZod column metadata options warnings =
        (Except.ok "z.unknown() /* unmapped type */",
          warnings ++ [unknownTypeWarning (toLowerJS column.dataType) (stripArrayUdt column)
            column.columnName])) ∧
    (options.strictMode = true →
      mapBaseTypeToZod column metadata options warnings =
        (Except.error (unknownTypeWarning (toLowerJS column.dataType) (stripArrayUdt column)
            column.columnName),
          warnings ++ [unknownTypeWarning (toLowerJS column.dataType) (stripArrayUdt column)
            column.columnName]) ∧
      containsSub (unknownTypeWarning (toLowerJS column.dataType) (stripArrayUdt column)
        column.columnName) column.columnName = true ∧
      containsSub (unknownTypeWarning (toLowerJS column.dataType) (stripArrayUdt column)
        column.columnName) (toLowerJS column.dataType) = true) := by
  constructor
  · intro h
    simp only [mapBaseTypeToZod]
    rw [hcustom, henum, hcomp, hrange, hbuiltin]
    simp [h]
  · intro h
    refine ⟨?_, ?_, ?_⟩
    · simp only [mapBaseTypeToZod]
      rw [hcustom, henum, hcomp, hrange, hbuiltin]
      simp [h]
    · exact containsSub_of_infix
        ⟨("Unknown type: " ++ toLowerJS column.dataType ++ " (udt: " ++ stripArrayUdt column ++
          ") in column ").data, [], by simp [unknownTypeWarning, dataAppend, List.append_assoc]⟩
    · exact containsSub_of_infix
        ⟨("Unknown type: " : String).data,
         (" (udt: " ++ stripArrayUdt column ++ ") in column " ++ column.columnName).data,
         by simp [unknownTypeWarning, dataAppend, List.append_assoc]⟩

/-- C3 witness: the unknown `custom_thing` column evaluated in both modes. -/
theorem unknown_type_fallback_witness :
    mapBaseTypeToZod mysteryColumn emptyMetadata nonStrictOptions [] =
      (Except.ok "z.unknown() /* unmapped type */",
        ["Unknown type: custom_thing (udt: custom_thing) in column mystery"]) ∧
    mapBaseTypeToZod mysteryColumn emptyMetadata strictOptions [] =
      (Except.error "Unknown type: custom_thing (udt: custom_thing) in column mystery",
        ["Unknown type: custom_thing (udt: custom_thing) in column mystery"]) := by
  constructor
  · exact ((unknown_type_fallback mysteryColumn emptyMetadata nonStrictOptions []
      rfl rfl rfl rfl rfl).1 rfl).trans rfl
  · exact (((unknown_type_fallback mysteryColumn emptyMetadata strictOptions []
      rfl rfl rfl rfl rfl).2 rfl).1).trans rfl

/-- C4 counterexample: the resolver itself throws.  On an unmapped type under
`strictMode` the error is raised inside `mapBaseTypeToZod` (hence surfaces
from `mapColumnToZod`), not deferred to the composition/emission boundary. -/
theorem strict_mode_throws_in_resolver_cex :
    (mapColumnToZod mysteryColumn emptyMetadata strictOptions []).1 =
      Except.error "Unknown type: custom_thing (udt: custom_thing) in column mystery" := rfl

/-- C4 (amended): with strict mode off the resolver is total and never
throws — every input descriptor and catalog produce an `ok` result, unknown
types degrading to the unknown marker. -/
theorem resolver_never_throws_nonstrict (column : ColumnMetadata) (metadata : DatabaseMetadata)
    (options : SchemaGenerationOptions) (warnings : List String)
    (h : options.strictMode = false) :
    (mapColumnToZod column metadata options warnings).1.isOk = true := by
  unfold mapColumnToZod
  cases hdl : domainLookup column metadata with
  | some d => rfl
  | none =>
    have hb := mapBase_ok_of_nonstrict column metadata options warnings h
    rcases hmb : mapBaseTypeToZod column metadata options warnings with ⟨r, w⟩
    rw [hmb] at hb
    cases r with
    | error e => simp [Except.isOk, Except.toBool] at hb
    | ok s =>
      by_cases ha : column.isArray = true <;> simp [ha, hmb] <;> rfl

/-- C4 witness: the unknown-type column resolves without error when strict
mode is off. -/
theorem resolver_never_throws_nonstrict_witness :
    (mapColumnToZod mysteryColumn emptyMetadata nonStrictOptions []).1.isOk = true :=
  resolver_never_throws_nonstrict mysteryColumn emptyMetadata nonStrictOptions [] rfl

/-- C5 counterexample: a clause matched by the `= ANY (ARRAY[...])` pattern
(whose bracket list carries no quoted values) is *not* consumed by that
match — it falls through and the later `length(col)` pattern produces the
predicate, so matching does not stop at the first textual success. -/
theorem any_array_fallthrough_cex :
    (anyArrayMatch "c" "c = any (array[1,2]) and length(c) >= 5").isSome = true ∧
    (lengthMatch "c" "c = any (array[1,2]) and length(c) >= 5").isSome = true ∧
    applyCheckConstraints id id "c" "z.string()"
      [⟨"ck", "c = any (array[1,2]) and length(c) >= 5"⟩] = "z.string().min(5)" :=
  ⟨rfl, rfl, rfl⟩

/-- C5 (amended): `applyCheckConstraints` folds each clause through the nine
patterns in the fixed order >=, >, <=, <, BETWEEN, IN, = ANY (ARRAY[...]),
~, length(col), consuming the clause at the first success for every pattern
except `= ANY (ARRAY[...])`, which consumes only when it extracts quoted
values onto a string-family base and otherwise falls through to the last two
patterns and the inert-comment fallback. -/
theorem constraint_cascade_first_match (nU nD : String → String) (col base : String)
    (constraints : List CheckConstraintMetadata) :
    applyCheckConstraints nU nD col base constraints =
      constraints.foldl
        (fun schema c =>
          runCascade (cascadeSteps nU nD) col (toLowerJS c.checkClause) schema
            (schema ++ " /* CHECK: " ++ c.checkClause ++ " */"))
        base := by
  unfold applyCheckConstraints
  induction constraints generalizing base with
  | nil => rfl
  | cons c cs ih => simp only [List.foldl, applyOne_eq_cascade, ih]

/-- C6 counterexample: two `>=` bounds folded in sequence onto a plain
numeric produce `z.number().min(5).min(7)` — the composed expression still
carries the earlier bound `7`, so the later bound does not overwrite it. -/
theorem bound_overwrite_cex :
    applyCheckConstraints id id "c" "z.number()" [⟨"k1", "c >= 7"⟩, ⟨"k2", "c >= 5"⟩] =
      "z.number().min(5).min(7)" ∧
    ("z.number().min(5).min(7)" : String) ≠ "z.number().min(5)" :=
  ⟨rfl, by decide⟩

/-- C6 (amended): a later `>=` bound is spliced in at the first occurrence of
the plain numeric token, so the final expression chains the later bound
textually before the earlier one and carries both (Zod applies both checks —
an intersection — rather than keeping only the last-applied bound). -/
theorem bound_chaining (nU nD : String → String) (col n1 n2 clause1 clause2 v1 v2 : String)
    (h1 : geMatch col (toLowerJS clause1) = some v1)
    (h2 : geMatch col (toLowerJS clause2) = some v2) :
    applyCheckConstraints nU nD col "z.number()" [⟨n1, clause1⟩, ⟨n2, clause2⟩] =
      "z.number().min(" ++ v2 ++ ").min(" ++ v1 ++ ")" := by
  unfold applyCheckConstraints
  simp only [List.foldl]
  have e1 : applyOneConstraint nU nD col "z.number()" clause1 =
      "z.number().min(" ++ v1 ++ ")" := by
    have e := geApply nU nD col clause1 "" v1 h1
    rwa [String.append_empty, String.append_empty] at e
  rw [e1]
  have hsplit : "z.number().min(" ++ v1 ++ ")" = "z.number()" ++ (".min(" ++ v1 ++ ")") := by
    apply String.ext
    simp only [dataAppend, List.append_assoc]
    rfl
  rw [hsplit]
  rw [geApply nU nD col clause2 (".min(" ++ v1 ++ ")") v2 h2]
  apply String.ext
  simp only [dataAppend, List.append_assoc]
  rfl

/-- C6 witness: bounds 10 then 2 are both present in the final expression. -/
theorem bound_chaining_witness :
    applyCheckConstraints id id "c" "z.number()" [⟨"k1", "c >= 10"⟩, ⟨"k2", "c >= 2"⟩] =
      "z.number().min(" ++ "2" ++ ").min(" ++ "10" ++ ")" :=
  bound_chaining id id "c" "k1" "k2" "c >= 10" "c >= 2" "10" "2" rfl rfl

end PgToZod

namespace PgToZod

/-- C7 counterexample: a `col IN (...)` clause over a non-string base is
silently dropped — the base schema is returned with *no* inert comment. -/
theorem in_nonstring_dropped_cex :
    (inMatch "c" "c in (\x27a\x27,\x27b\x27)").isSome = true ∧
    applyCheckConstraints id id "c" "z.number()" [⟨"ck", "c in (\x27a\x27,\x27b\x27)"⟩] =
      "z.number()" :=
  ⟨rfl, rfl⟩

/-- C7 (amended): on a non-string base, a clause matching the standard
`IN (...)` pattern is consumed and silently dropped (base unchanged, no
comment); a clause matching the `= ANY (ARRAY[...])` pattern instead falls
through, and when neither the `~` nor the `length(col)` pattern matches it
degrades to the inert comment carrying the clause text. -/
theorem enum_nonstring_degradation :
    (∀ (nU nD : String → String) (col schema cname clause inner : String),
      geMatch col (toLowerJS clause) = none →
      gtMatch col (toLowerJS clause) = none →
      leMatch col (toLowerJS clause) = none →
      ltMatch col (toLowerJS clause) = none →
      betweenMatch col (toLowerJS clause) = none →
      inMatch col (toLowerJS clause) = some inner →
      containsSub schema "z.string()" = false →
      applyCheckConstraints nU nD col schema [⟨cname, clause⟩] = schema) ∧
    (∀ (nU nD : String → String) (col schema cname clause vs : String),
      geMatch col (toLowerJS clause) = none →
      gtMatch col (toLowerJS clause) = none →
      leMatch col (toLowerJS clause) = none →
      ltMatch col (toLowerJS clause) = none →
      betweenMatch col (toLowerJS clause) = none →
      inMatch col (toLowerJS clause) = none →
      anyArrayMatch col (toLowerJS clause) = some vs →
      containsSub schema "z.string()" = false →
      tildeMatch col (toLowerJS clause) = none →
      lengthMatch col (toLowerJS clause) = none →
      applyCheckConstraints nU nD col schema [⟨cname, clause⟩] =
        schema ++ " /* CHECK: " ++ clause ++ " */") := by
  constructor
  · intro nU nD col schema cname clause inner hge hgt hle hlt hbet hin hstr
    simp only [applyCheckConstraints, List.foldl, applyOneConstraint]
    rw [hge, hgt, hle, hlt, hbet, hin]
    simp [hstr]
  · intro nU nD col schema cname clause vs hge hgt hle hlt hbet hin hany hstr htilde hlen
    simp only [applyCheckConstraints, List.foldl, applyOneConstraint]
    rw [hge, hgt, hle, hlt, hbet, hin, hany]
    simp only [hstr, Bool.and_false, if_false, tailPatterns]
    rw [htilde, hlen]
    simp

/-- C7 witness: both degradation behaviors at concrete inputs — the IN clause
dropped from a numeric base, the ANY clause degraded to a comment on a
boolean base. -/
theorem enum_nonstring_degradation_witness :
    applyCheckConstraints id id "c" "z.number().int()" [⟨"k", "c in (\x27x\x27,\x27y\x27)"⟩] =
      "z.number().int()" ∧
    applyCheckConstraints id id "c" "z.boolean()" [⟨"k", "c = any (array[\x27x\x27])"⟩] =
      "z.boolean()" ++ " /* CHECK: " ++ "c = any (array[\x27x\x27])" ++ " */" :=
  ⟨enum_nonstring_degradation.1 id id "c" "z.number().int()" "k" "c in (\x27x\x27,\x27y\x27)"
      "\x27x\x27,\x27y\x27" rfl rfl rfl rfl rfl rfl rfl,
   enum_nonstring_degradation.2 id id "c" "z.boolean()" "k" "c = any (array[\x27x\x27])"
      "\x27x\x27" rfl rfl rfl rfl rfl rfl rfl rfl rfl rfl⟩

/-- C9: composing an empty predicate list onto any base schema is the
identity. -/
theorem empty_predicates_identity (nU nD : String → String) (col base : String) :
    applyCheckConstraints nU nD col base [] = base := rfl

/-- C10: a non-null domain name that matches no catalog domain silently falls
through — the column resolves exactly as the identical column with no domain
name: same result, no error and no extra warning. -/
theorem dangling_domain_fallthrough (column : ColumnMetadata) (metadata : DatabaseMetadata)
    (options : SchemaGenerationOptions) (warnings : List String) (dn : String)
    (h1 : column.domainName = some dn)
    (h2 : metadata.domains.find? (fun d => d.domainName == dn) = none) :
    mapColumnToZod column metadata options warnings =
      mapColumnToZod { column with domainName := none } metadata options warnings := by
  have hdl : domainLookup column metadata = none := by
    unfold domainLookup
    rw [h1]
    by_cases he : dn = "" <;> simp [he, h2]
  have hdl2 : domainLookup { column with domainName := none } metadata = none := rfl
  unfold mapColumnToZod
  rw [hdl, hdl2]
  rfl

/-- C10 witness: a `text` column referencing the absent domain `ghost`
resolves exactly like the same column without the domain reference. -/
theorem dangling_domain_fallthrough_witness :
    mapColumnToZod ⟨"note", "text", true, none, none, none, "text", some "ghost", 0, false⟩
        emptyMetadata nonStrictOptions [] =
      mapColumnToZod ⟨"note", "text", true, none, none, none, "text", none, 0, false⟩
        emptyMetadata nonStrictOptions [] :=
  dangling_domain_fallthrough
    ⟨"note", "text", true, none, none, none, "text", some "ghost", 0, false⟩
    emptyMetadata nonStrictOptions [] "ghost" rfl rfl

end PgToZod
